import Mathlib

/-
Verification of the tick logic of the raft library (src/tick.c) against its
specification. The state of a raft instance is embedded shallowly: the fields
of struct raft that the tick logic reads or writes become fields of a Lean
structure, and the helper functions from other translation units
(configuration.c, election.c, state.c, replication.c, watch.c), whose sources
are not available, are modelled from the specification sections that describe
them. Side effects (outbound messages, observer notifications) are recorded in
an explicit event list.
-/

namespace RaftTick

/-- The server role, RAFT_STATE_* in raft.h. -/
inductive RaftState where
  | unavailable
  | follower
  | candidate
  | leader
deriving DecidableEq

/-- One entry of the configuration roster: struct raft_server. -/
structure RaftServer where
  id : Nat
  address : String
  voting : Bool
deriving DecidableEq

/-- The configuration: an ordered list of servers (struct raft_configuration). -/
structure RaftConfiguration where
  servers : List RaftServer
deriving DecidableEq

/-- Observable effects emitted by the tick logic: a replication trigger
(heartbeat round), a promotion-aborted observer notification, and the
request-vote messages emitted when an election starts. -/
inductive RaftEvent where
  | replicationTriggered
  | promotionAborted (id : Nat)
  | requestVote (id : Nat)
deriving DecidableEq

/-- The leader-specific promotion fields of struct raft (r->leader_state). -/
structure LeaderState where
  promotee_id : Nat
  round_index : Nat
  round_number : Nat
  round_duration : Nat
deriving DecidableEq

/-- The fields of struct raft read or written by the tick logic, plus the
event list recording emitted effects. -/
structure Raft where
  id : Nat
  state : RaftState
  configuration : RaftConfiguration
  current_term : Nat
  voted_for : Nat
  timer : Nat
  election_timeout : Nat
  election_timeout_rand : Nat
  heartbeat_timeout : Nat
  votes_granted : List Nat
  leader_state : LeaderState
  rand : Nat
  events : List RaftEvent
deriving DecidableEq

/-- Modelled from the spec: configuration operation `get(id) → server?`
(§4.1); configuration.c is not among the available sources. Ids are unique,
so the first match is the match. -/
def raft_configuration__get (c : RaftConfiguration) (id : Nat) :
    Option RaftServer :=
  c.servers.find? (fun s => s.id == id)

/-- Modelled from the spec: `n_voting() → size` (§4.1), the number of servers
with the voting flag set. -/
def raft_configuration__n_voting (c : RaftConfiguration) : Nat :=
  (c.servers.filter (fun s => s.voting)).length

/-- Modelled from the spec: `index(id) → position?` (§4.1). Like the C
function it returns the number of servers when the id is absent, so the
result is a valid position exactly when it is below the roster length. -/
def raft_configuration__index (c : RaftConfiguration) (id : Nat) : Nat :=
  c.servers.findIdx (fun s => s.id == id)

/-- Modelled from the spec: re-sample the randomized election timeout
uniformly from [election_timeout, 2·election_timeout) and reset the timer
(§4.3); election.c is not among the available sources. The entropy source is
the rand field. -/
def raft_election__reset_timer (r : Raft) : Raft :=
  { r with
    election_timeout_rand :=
      r.election_timeout + r.rand % r.election_timeout,
    timer := 0 }

/-- Modelled from the spec: start (or restart) an election (§4.3): increment
the term, vote for self, reset the granted-votes set to self when voting,
re-sample the timeout and reset the timer, and emit a RequestVote to every
other voting server. -/
def raft_election__start (r : Raft) : Raft :=
  let r1 := { r with
    current_term := r.current_term + 1,
    voted_for := r.id,
    votes_granted :=
      match raft_configuration__get r.configuration r.id with
      | some s => if s.voting then [r.id] else []
      | none => [] }
  let r2 := raft_election__reset_timer r1
  { r2 with
    events := r2.events ++
      (r2.configuration.servers.filter
        (fun s => s.voting && s.id != r2.id)).map
        (fun s => RaftEvent.requestVote s.id) }

/-- Modelled from the spec: the Follower→Candidate role transition (§4.5,
role transition table); state.c is not among the available sources. It sets
the candidate role and starts an election. -/
def raft_state__convert_to_candidate (r : Raft) : Raft :=
  raft_election__start { r with state := RaftState.candidate }

/-- Modelled from the spec: the Candidate→Leader role transition (§4.4
leader initialization); the promotion fields start cleared. -/
def raft_state__convert_to_leader (r : Raft) : Raft :=
  { r with
    state := RaftState.leader,
    leader_state := ⟨0, 0, 0, 0⟩ }

/-- Modelled from the spec: trigger a replication round, i.e. an
AppendEntries (heartbeat) to each peer (§4.4); replication.c is not among
the available sources. Recorded as a single emitted event. -/
def raft_replication__trigger (r : Raft) : Raft :=
  { r with events := r.events ++ [RaftEvent.replicationTriggered] }

/-- Modelled from the spec: notify the observer channel with
PromotionAborted(target_id) (§4.6); watch.c is not among the available
sources. -/
def raft_watch__promotion_aborted (r : Raft) (id : Nat) : Raft :=
  { r with events := r.events ++ [RaftEvent.promotionAborted id] }

/-- RAFT_MAX_CATCH_UP_DURATION from src/tick.c line 14: milliseconds after
which a promotion is aborted if the server has not caught up.  -/
def RAFT_MAX_CATCH_UP_DURATION : Nat := 30 * 1000

/-- Placeholder for the RAFT_ERR_INTERNAL error code of raft.h; the tick
dispatcher only produces it on its unreachable default branch, so only its
being nonzero matters. -/
def RAFT_ERR_INTERNAL : Int := 1

/-- raft_tick__follower from src/tick.c: stay follower when absent from the
configuration; self-elect when the single voting server; otherwise convert
to candidate when the timer exceeded the randomized election timeout and we
are voting. -/
def raft_tick__follower (r : Raft) : Int × Raft :=
  match raft_configuration__get r.configuration r.id with
  | none => (0, r)
  | some server =>
    if raft_configuration__n_voting r.configuration = 1 then
      if server.voting then
        (0, raft_state__convert_to_leader
              (raft_state__convert_to_candidate r))
      else
        (0, r)
    else
      if r.timer > r.election_timeout_rand ∧ server.voting then
        (0, raft_state__convert_to_candidate r)
      else
        (0, r)

/-- raft_tick__candidate from src/tick.c: start a new election when the
timer exceeded the randomized election timeout. -/
def raft_tick__candidate (r : Raft) : Int × Raft :=
  if r.timer > r.election_timeout_rand then
    (0, raft_election__start r)
  else
    (0, r)

/-- First block of raft_tick__leader from src/tick.c: when the timer
exceeded the heartbeat timeout, trigger replication and reset the timer. -/
def leaderHeartbeatStep (r : Raft) : Raft :=
  if r.timer > r.heartbeat_timeout then
    { raft_replication__trigger r with timer := 0 }
  else
    r

/-- Second block of raft_tick__leader from src/tick.c: when a promotion is
in progress, advance the round duration and abort the promotion when the
tenth round exceeds the election timeout or the duration exceeds
RAFT_MAX_CATCH_UP_DURATION. The two asserts of the C code (the promotee has
an entry in the configuration and is not voting) become the none result. -/
def leaderPromotionStep (r : Raft) (msec_since_last_tick : Nat) :
    Option Raft :=
  if r.leader_state.promotee_id ≠ 0 then
    let id := r.leader_state.promotee_id
    let server_index := raft_configuration__index r.configuration id
    match r.configuration.servers[server_index]? with
    | none => none
    | some s =>
      if s.voting then none
      else
        let r1 := { r with leader_state :=
          { r.leader_state with round_duration :=
              r.leader_state.round_duration + msec_since_last_tick } }
        let is_too_slow := r1.leader_state.round_number = 10 ∧
          r1.leader_state.round_duration > r1.election_timeout
        let is_unresponsive :=
          r1.leader_state.round_duration > RAFT_MAX_CATCH_UP_DURATION
        if is_too_slow ∨ is_unresponsive then
          let r2 := { r1 with leader_state := ⟨0, 0, 0, 0⟩ }
          some (raft_watch__promotion_aborted r2 id)
        else
          some r1
  else
    some r

/-- raft_tick__leader from src/tick.c: the heartbeat block followed by the
promotion block; the C function always returns 0, assertion failures are
the none result. -/
def raft_tick__leader (r : Raft) (msec_since_last_tick : Nat) :
    Option Raft :=
  leaderPromotionStep (leaderHeartbeatStep r) msec_since_last_tick

/-- raft__tick from src/tick.c: no-op when unavailable, otherwise advance
the timer and dispatch on the role. -/
def raft__tick (r : Raft) (msec_since_last_tick : Nat) :
    Option (Int × Raft) :=
  if r.state = RaftState.unavailable then
    some (0, r)
  else
    let r1 := { r with timer := r.timer + msec_since_last_tick }
    match r1.state with
    | RaftState.follower => some (raft_tick__follower r1)
    | RaftState.candidate => some (raft_tick__candidate r1)
    | RaftState.leader =>
      (raft_tick__leader r1 msec_since_last_tick).map
        (fun r2 => ((0 : Int), r2))
    | RaftState.unavailable => some (RAFT_ERR_INTERNAL, r1)

/-- The check performed by the two assertions of the promotion block of
raft_tick__leader: the promotee has an entry in the configuration (its index
is a valid position) and that entry is not voting. -/
def promotionOk (r : Raft) : Bool :=
  match r.configuration.servers[raft_configuration__index r.configuration
      r.leader_state.promotee_id]? with
  | none => false
  | some s => !s.voting

/-- The implicit precondition of the leader tick: whenever the instance is a
Leader with a promotion in progress, the promotee is present in the
configuration and non-voting. -/
def promotionInv (r : Raft) : Prop :=
  r.state = RaftState.leader → r.leader_state.promotee_id ≠ 0 →
    promotionOk r = true

/-- A predicate on the instance holds after a tick result: the tick
succeeded (no assertion failed) and its resulting instance satisfies the
predicate. -/
def holdsAfter (P : Raft → Prop) (o : Option (Int × Raft)) : Prop :=
  match o with
  | none => False
  | some p => P p.2

/-- The abort policy as the specification's claim parametrizes it, by
init-time options max_catch_up_ms and max_rounds: abort when the promotion
has run max_rounds rounds and the round duration exceeds the election
timeout, or when the round duration exceeds max_catch_up_ms. -/
def specAbortWithOptions (max_catch_up_ms max_rounds round_number
    round_duration election_timeout : Nat) : Bool :=
  (round_number == max_rounds && decide (round_duration > election_timeout))
    || decide (round_duration > max_catch_up_ms)

/-- Number of replication triggers (heartbeat rounds) recorded in an event
list. -/
def countTriggers : List RaftEvent → Nat
  | [] => 0
  | e :: es =>
    (if e = RaftEvent.replicationTriggered then 1 else 0) + countTriggers es

/-- Number of PromotionAborted(i) notifications recorded in an event
list. -/
def countAborts (i : Nat) : List RaftEvent → Nat
  | [] => 0
  | e :: es =>
    (if e = RaftEvent.promotionAborted i then 1 else 0) + countAborts i es

/-- A concrete instance used by the witnesses: follower 1 in a roster of two
voting servers and one non-voting server. -/
def baseRaft : Raft :=
  { id := 1, state := RaftState.follower,
    configuration := ⟨[⟨1, "a", true⟩, ⟨2, "b", true⟩, ⟨3, "c", false⟩]⟩,
    current_term := 1, voted_for := 0, timer := 0,
    election_timeout := 1000, election_timeout_rand := 1500,
    heartbeat_timeout := 100, votes_granted := [],
    leader_state := ⟨0, 0, 0, 0⟩, rand := 7, events := [] }

/-- A concrete leader instance with a promotion of server 3 in progress,
used by the witnesses: round 5, 24999 ms of round duration so far. -/
def leaderRaft : Raft :=
  { baseRaft with
    state := RaftState.leader,
    current_term := 2,
    leader_state := ⟨3, 4, 5, 24999⟩ }

/-- The instance resulting from a successful tick, used to state concrete
witnesses (the default value is never reached there). -/
def afterTick (r : Raft) (msec : Nat) : Raft :=
  ((raft__tick r msec).getD (0, r)).2

/-! Helper lemmas about the modelled transitions. -/

@[simp] theorem reset_timer_state (r : Raft) :
    (raft_election__reset_timer r).state = r.state := rfl

@[simp] theorem election_start_state (r : Raft) :
    (raft_election__start r).state = r.state := rfl

@[simp] theorem convert_to_candidate_state (r : Raft) :
    (raft_state__convert_to_candidate r).state = RaftState.candidate := rfl

@[simp] theorem convert_to_leader_state (r : Raft) :
    (raft_state__convert_to_leader r).state = RaftState.leader := rfl

@[simp] theorem election_start_current_term (r : Raft) :
    (raft_election__start r).current_term = r.current_term + 1 := rfl

@[simp] theorem election_start_voted_for (r : Raft) :
    (raft_election__start r).voted_for = r.id := rfl

@[simp] theorem election_start_timer (r : Raft) :
    (raft_election__start r).timer = 0 := rfl

@[simp] theorem election_start_timeout_rand (r : Raft) :
    (raft_election__start r).election_timeout_rand =
      r.election_timeout + r.rand % r.election_timeout := rfl

@[simp] theorem heartbeatStep_leader_state (r : Raft) :
    (leaderHeartbeatStep r).leader_state = r.leader_state := by
  unfold leaderHeartbeatStep raft_replication__trigger
  split <;> rfl

@[simp] theorem heartbeatStep_configuration (r : Raft) :
    (leaderHeartbeatStep r).configuration = r.configuration := by
  unfold leaderHeartbeatStep raft_replication__trigger
  split <;> rfl

@[simp] theorem heartbeatStep_state (r : Raft) :
    (leaderHeartbeatStep r).state = r.state := by
  unfold leaderHeartbeatStep raft_replication__trigger
  split <;> rfl

@[simp] theorem heartbeatStep_election_timeout (r : Raft) :
    (leaderHeartbeatStep r).election_timeout = r.election_timeout := by
  unfold leaderHeartbeatStep raft_replication__trigger
  split <;> rfl

theorem heartbeatStep_timer (r : Raft) :
    (leaderHeartbeatStep r).timer =
      if r.timer > r.heartbeat_timeout then 0 else r.timer := by
  unfold leaderHeartbeatStep raft_replication__trigger
  split <;> simp [*]

theorem heartbeatStep_events (r : Raft) :
    (leaderHeartbeatStep r).events =
      if r.timer > r.heartbeat_timeout then
        r.events ++ [RaftEvent.replicationTriggered]
      else r.events := by
  unfold leaderHeartbeatStep raft_replication__trigger
  split <;> simp [*]

@[simp] theorem countTriggers_append (l1 l2 : List RaftEvent) :
    countTriggers (l1 ++ l2) = countTriggers l1 + countTriggers l2 := by
  induction l1 with
  | nil => simp [countTriggers]
  | cons e es ih => simp [countTriggers, ih]; omega

@[simp] theorem countAborts_append (i : Nat) (l1 l2 : List RaftEvent) :
    countAborts i (l1 ++ l2) = countAborts i l1 + countAborts i l2 := by
  induction l1 with
  | nil => simp [countAborts]
  | cons e es ih => simp [countAborts, ih]; omega

theorem countTriggers_heartbeatStep (r : Raft) :
    countTriggers (leaderHeartbeatStep r).events =
      if r.timer > r.heartbeat_timeout then
        countTriggers r.events + 1
      else countTriggers r.events := by
  rw [heartbeatStep_events]
  split <;> simp [countTriggers]

theorem countAborts_heartbeatStep (i : Nat) (r : Raft) :
    countAborts i (leaderHeartbeatStep r).events =
      countAborts i r.events := by
  rw [heartbeatStep_events]
  split <;> simp [countAborts]

@[simp] theorem promotionOk_timer (r : Raft) (t : Nat) :
    promotionOk { r with timer := t } = promotionOk r := rfl

@[simp] theorem promotionOk_heartbeatStep (r : Raft) :
    promotionOk (leaderHeartbeatStep r) = promotionOk r := by
  unfold leaderHeartbeatStep raft_replication__trigger
  split <;> rfl

theorem leaderPromotionStep_no_promotee (r : Raft) (msec : Nat)
    (hp : r.leader_state.promotee_id = 0) :
    leaderPromotionStep r msec = some r := by
  unfold leaderPromotionStep
  simp [hp]

theorem leaderPromotionStep_eq (r : Raft) (msec : Nat)
    (hp : r.leader_state.promotee_id ≠ 0)
    (hok : promotionOk r = true) :
    leaderPromotionStep r msec = some (
      if (r.leader_state.round_number = 10 ∧
            r.leader_state.round_duration + msec > r.election_timeout) ∨
          r.leader_state.round_duration + msec > RAFT_MAX_CATCH_UP_DURATION
      then
        raft_watch__promotion_aborted
          { r with leader_state := ⟨0, 0, 0, 0⟩ }
          r.leader_state.promotee_id
      else
        { r with leader_state := { r.leader_state with
            round_duration := r.leader_state.round_duration + msec } }) := by
  unfold leaderPromotionStep
  unfold promotionOk at hok
  match hm : r.configuration.servers[raft_configuration__index
      r.configuration r.leader_state.promotee_id]? with
  | none => rw [hm] at hok; cases hok
  | some s =>
    rw [hm] at hok
    simp only [Bool.not_eq_true'] at hok
    simp [hp, hm, hok]
    split <;> rfl

/-- When the promotee is missing from the configuration or is already
voting, the promotion block hits an assertion. -/
theorem leaderPromotionStep_assert_fail (r : Raft) (msec : Nat)
    (hp : r.leader_state.promotee_id ≠ 0)
    (hok : promotionOk r = false) :
    leaderPromotionStep r msec = none := by
  unfold leaderPromotionStep
  unfold promotionOk at hok
  match hm : r.configuration.servers[raft_configuration__index
      r.configuration r.leader_state.promotee_id]? with
  | none => simp [hp, hm]
  | some s =>
    rw [hm] at hok
    have hv : s.voting = true := by simpa using hok
    simp [hp, hm, hv]

/-- Under the Leader role the tick dispatcher is the heartbeat block
followed by the promotion block on the timer-advanced instance. -/
theorem raft__tick_leader_eq (r : Raft) (msec : Nat)
    (hstate : r.state = RaftState.leader) :
    raft__tick r msec =
      (leaderPromotionStep
        (leaderHeartbeatStep { r with timer := r.timer + msec }) msec).map
        (fun r2 => ((0 : Int), r2)) := by
  unfold raft__tick raft_tick__leader
  simp [hstate]

/-- The promotion block never touches the timer, the role, the
configuration, or the replication triggers already recorded. -/
theorem leaderPromotionStep_frame (r : Raft) (msec : Nat) (y : Raft)
    (h : leaderPromotionStep r msec = some y) :
    y.timer = r.timer ∧ y.state = r.state ∧
    y.configuration = r.configuration ∧
    countTriggers y.events = countTriggers r.events := by
  by_cases hp : r.leader_state.promotee_id = 0
  · rw [leaderPromotionStep_no_promotee r msec hp] at h
    cases h
    exact ⟨rfl, rfl, rfl, rfl⟩
  · by_cases hok : promotionOk r = true
    · rw [leaderPromotionStep_eq r msec hp hok] at h
      cases h
      split
      · unfold raft_watch__promotion_aborted
        simp [countTriggers]
      · simp
    · rw [leaderPromotionStep_assert_fail r msec hp
        (by simpa using hok)] at h
      cases h

/-! The claims. -/

/-- C8: if the state is Unavailable, tick returns 0 and leaves the instance
unchanged, the timer included, for every elapsed time. -/
theorem tick_unavailable_noop (r : Raft) (msec : Nat)
    (hstate : r.state = RaftState.unavailable) :
    raft__tick r msec = some (0, r) := by
  unfold raft__tick
  simp [hstate]

/-- C8 witness at a concrete unavailable instance. -/
theorem tick_unavailable_noop_witness :
    raft__tick
      { id := 1, state := RaftState.unavailable,
        configuration := ⟨[⟨1, "a", true⟩]⟩,
        current_term := 3, voted_for := 0, timer := 42,
        election_timeout := 1000, election_timeout_rand := 1500,
        heartbeat_timeout := 100, votes_granted := [],
        leader_state := ⟨0, 0, 0, 0⟩, rand := 0, events := [] } 250 =
    some (0,
      { id := 1, state := RaftState.unavailable,
        configuration := ⟨[⟨1, "a", true⟩]⟩,
        current_term := 3, voted_for := 0, timer := 42,
        election_timeout := 1000, election_timeout_rand := 1500,
        heartbeat_timeout := 100, votes_granted := [],
        leader_state := ⟨0, 0, 0, 0⟩, rand := 0, events := [] }) :=
  tick_unavailable_noop _ 250 rfl

/-- C6: a Follower absent from the configuration stays Follower with only
the timer advanced, and tick returns 0, for every elapsed time. -/
theorem tick_follower_not_in_config (r : Raft) (msec : Nat)
    (hstate : r.state = RaftState.follower)
    (hget : raft_configuration__get r.configuration r.id = none) :
    raft__tick r msec = some (0, { r with timer := r.timer + msec }) := by
  unfold raft__tick raft_tick__follower
  simp [hstate, hget]

/-- C6 witness: follower with id 9 absent from the roster. -/
theorem tick_follower_not_in_config_witness :
    raft__tick
      { id := 9, state := RaftState.follower,
        configuration := ⟨[⟨1, "a", true⟩, ⟨2, "b", true⟩]⟩,
        current_term := 3, voted_for := 0, timer := 7,
        election_timeout := 1000, election_timeout_rand := 1500,
        heartbeat_timeout := 100, votes_granted := [],
        leader_state := ⟨0, 0, 0, 0⟩, rand := 0, events := [] } 100 =
    some (0,
      { id := 9, state := RaftState.follower,
        configuration := ⟨[⟨1, "a", true⟩, ⟨2, "b", true⟩]⟩,
        current_term := 3, voted_for := 0, timer := 107,
        election_timeout := 1000, election_timeout_rand := 1500,
        heartbeat_timeout := 100, votes_granted := [],
        leader_state := ⟨0, 0, 0, 0⟩, rand := 0, events := [] }) :=
  tick_follower_not_in_config _ 100 rfl (by decide)

/-- C7: a Candidate tick starts a new election (term incremented, vote state
reset, timeout resampled, timer reset) exactly when the advanced timer
strictly exceeds the randomized election timeout; otherwise only the timer
is advanced. -/
theorem tick_candidate_restart (r : Raft) (msec : Nat)
    (hstate : r.state = RaftState.candidate) :
    raft__tick r msec = some (0,
      if r.timer + msec > r.election_timeout_rand then
        raft_election__start { r with timer := r.timer + msec }
      else { r with timer := r.timer + msec }) ∧
    (raft_election__start { r with timer := r.timer + msec }).current_term
      = r.current_term + 1 ∧
    (raft_election__start { r with timer := r.timer + msec }).voted_for
      = r.id ∧
    (raft_election__start { r with timer := r.timer + msec }).timer = 0 ∧
    (raft_election__start { r with timer := r.timer + msec
      }).election_timeout_rand
      = r.election_timeout + r.rand % r.election_timeout ∧
    ({ r with timer := r.timer + msec } : Raft).state
      = RaftState.candidate := by
  refine ⟨?_, rfl, rfl, rfl, rfl, hstate⟩
  unfold raft__tick raft_tick__candidate
  simp [hstate]
  split <;> rfl

/-- C7 witness: candidate whose advanced timer exceeds the randomized
timeout, so the election restarts. -/
theorem tick_candidate_restart_witness :
    raft__tick { baseRaft with state := RaftState.candidate } 2000 = some (0,
      if ({ baseRaft with state := RaftState.candidate } : Raft).timer + 2000
          > ({ baseRaft with state := RaftState.candidate }
              : Raft).election_timeout_rand then
        raft_election__start { { baseRaft with state := RaftState.candidate }
          with timer := ({ baseRaft with state := RaftState.candidate }
            : Raft).timer + 2000 }
      else { { baseRaft with state := RaftState.candidate }
        with timer := ({ baseRaft with state := RaftState.candidate }
          : Raft).timer + 2000 }) ∧
    (raft_election__start { { baseRaft with state := RaftState.candidate }
      with timer := ({ baseRaft with state := RaftState.candidate }
        : Raft).timer + 2000 }).current_term
      = ({ baseRaft with state := RaftState.candidate }
          : Raft).current_term + 1 ∧
    (raft_election__start { { baseRaft with state := RaftState.candidate }
      with timer := ({ baseRaft with state := RaftState.candidate }
        : Raft).timer + 2000 }).voted_for
      = ({ baseRaft with state := RaftState.candidate } : Raft).id ∧
    (raft_election__start { { baseRaft with state := RaftState.candidate }
      with timer := ({ baseRaft with state := RaftState.candidate }
        : Raft).timer + 2000 }).timer = 0 ∧
    (raft_election__start { { baseRaft with state := RaftState.candidate }
      with timer := ({ baseRaft with state := RaftState.candidate }
        : Raft).timer + 2000 }).election_timeout_rand
      = ({ baseRaft with state := RaftState.candidate }
          : Raft).election_timeout
        + ({ baseRaft with state := RaftState.candidate } : Raft).rand
          % ({ baseRaft with state := RaftState.candidate }
              : Raft).election_timeout ∧
    ({ { baseRaft with state := RaftState.candidate }
      with timer := ({ baseRaft with state := RaftState.candidate }
        : Raft).timer + 2000 } : Raft).state = RaftState.candidate :=
  tick_candidate_restart { baseRaft with state := RaftState.candidate }
    2000 rfl

/-- C2: a Follower present in a configuration with more than one voting
server converts to Candidate exactly when the advanced timer strictly
exceeds the randomized election timeout and the server is voting; otherwise
it stays Follower with only the timer advanced. -/
theorem tick_follower_election_iff (r : Raft) (msec : Nat)
    (server : RaftServer)
    (hstate : r.state = RaftState.follower)
    (hget : raft_configuration__get r.configuration r.id = some server)
    (hn : 1 < raft_configuration__n_voting r.configuration) :
    raft__tick r msec = some (0,
      if r.timer + msec > r.election_timeout_rand ∧ server.voting = true then
        raft_state__convert_to_candidate { r with timer := r.timer + msec }
      else { r with timer := r.timer + msec }) ∧
    (raft_state__convert_to_candidate { r with timer := r.timer + msec
      }).state = RaftState.candidate ∧
    ({ r with timer := r.timer + msec } : Raft).state
      = RaftState.follower := by
  have hn1 : raft_configuration__n_voting r.configuration ≠ 1 := by omega
  refine ⟨?_, rfl, hstate⟩
  unfold raft__tick raft_tick__follower
  simp [hstate, hget, hn1]
  split <;> rfl

/-- C2 witness: voting follower in a two-voter roster whose advanced timer
exceeds the randomized timeout, so it converts to Candidate. -/
theorem tick_follower_election_iff_witness :
    raft__tick baseRaft 2000 = some (0,
      if baseRaft.timer + 2000 > baseRaft.election_timeout_rand ∧
          (⟨1, "a", true⟩ : RaftServer).voting = true then
        raft_state__convert_to_candidate
          { baseRaft with timer := baseRaft.timer + 2000 }
      else { baseRaft with timer := baseRaft.timer + 2000 }) ∧
    (raft_state__convert_to_candidate
      { baseRaft with timer := baseRaft.timer + 2000 }).state
      = RaftState.candidate ∧
    ({ baseRaft with timer := baseRaft.timer + 2000 } : Raft).state
      = RaftState.follower :=
  tick_follower_election_iff baseRaft 2000 ⟨1, "a", true⟩ rfl (by decide)
    (by decide)

/-- C4: a Follower that is the sole voting server of its configuration
self-elects on any tick, converting to Candidate and then to Leader within
the same call, with no timer condition. -/
theorem tick_follower_self_elect (r : Raft) (msec : Nat)
    (server : RaftServer)
    (hstate : r.state = RaftState.follower)
    (hget : raft_configuration__get r.configuration r.id = some server)
    (hn : raft_configuration__n_voting r.configuration = 1)
    (hv : server.voting = true) :
    raft__tick r msec = some (0,
      raft_state__convert_to_leader
        (raft_state__convert_to_candidate
          { r with timer := r.timer + msec })) ∧
    (raft_state__convert_to_candidate { r with timer := r.timer + msec
      }).state = RaftState.candidate ∧
    (raft_state__convert_to_leader
      (raft_state__convert_to_candidate
        { r with timer := r.timer + msec })).state = RaftState.leader := by
  refine ⟨?_, rfl, rfl⟩
  unfold raft__tick raft_tick__follower
  simp [hstate, hget, hn, hv]

/-- C4 witness: singleton voter self-elects with a zero elapsed time. -/
theorem tick_follower_self_elect_witness :
    raft__tick { baseRaft with configuration := ⟨[⟨1, "a", true⟩]⟩ } 0 =
      some (0,
      raft_state__convert_to_leader
        (raft_state__convert_to_candidate
          { { baseRaft with configuration := ⟨[⟨1, "a", true⟩]⟩ }
            with timer := ({ baseRaft with
              configuration := ⟨[⟨1, "a", true⟩]⟩ } : Raft).timer + 0 })) ∧
    (raft_state__convert_to_candidate
      { { baseRaft with configuration := ⟨[⟨1, "a", true⟩]⟩ }
        with timer := ({ baseRaft with
          configuration := ⟨[⟨1, "a", true⟩]⟩ } : Raft).timer + 0 }).state
      = RaftState.candidate ∧
    (raft_state__convert_to_leader
      (raft_state__convert_to_candidate
        { { baseRaft with configuration := ⟨[⟨1, "a", true⟩]⟩ }
          with timer := ({ baseRaft with
            configuration := ⟨[⟨1, "a", true⟩]⟩ } : Raft).timer + 0
          })).state = RaftState.leader :=
  tick_follower_self_elect
    { baseRaft with configuration := ⟨[⟨1, "a", true⟩]⟩ } 0
    ⟨1, "a", true⟩ rfl (by decide) (by decide) rfl

/-- C3: on every Leader tick, a replication (heartbeat) round is triggered
and the timer reset to 0 exactly when the advanced timer strictly exceeds
the heartbeat timeout; otherwise no heartbeat is triggered and the timer
keeps its advanced value. -/
theorem tick_leader_heartbeat (r : Raft) (msec : Nat) (rv : Int) (r' : Raft)
    (hstate : r.state = RaftState.leader)
    (htick : raft__tick r msec = some (rv, r')) :
    (r.timer + msec > r.heartbeat_timeout →
      r'.timer = 0 ∧
      countTriggers r'.events = countTriggers r.events + 1) ∧
    (¬ r.timer + msec > r.heartbeat_timeout →
      r'.timer = r.timer + msec ∧
      countTriggers r'.events = countTriggers r.events) := by
  rw [raft__tick_leader_eq r msec hstate] at htick
  rw [Option.map_eq_some'] at htick
  obtain ⟨y, hy, hpair⟩ := htick
  have hpair' : ((0 : Int), y) = (rv, r') := hpair
  obtain ⟨h0, hr⟩ := Prod.mk.injEq .. ▸ hpair'
  subst hr
  obtain ⟨ht, _, _, hc⟩ := leaderPromotionStep_frame _ msec y hy
  rw [heartbeatStep_timer] at ht
  rw [countTriggers_heartbeatStep] at hc
  simp only at ht hc
  constructor
  · intro hcond
    rw [if_pos hcond] at ht
    rw [if_pos hcond] at hc
    exact ⟨ht, hc⟩
  · intro hcond
    rw [if_neg hcond] at ht
    rw [if_neg hcond] at hc
    exact ⟨ht, hc⟩

/-- C3 witness: leader whose advanced timer 200 exceeds the heartbeat
timeout 100, so a heartbeat round is triggered and the timer resets. -/
theorem tick_leader_heartbeat_witness :
    (leaderRaft.timer + 200 > leaderRaft.heartbeat_timeout →
      (afterTick leaderRaft 200).timer = 0 ∧
      countTriggers (afterTick leaderRaft 200).events
        = countTriggers leaderRaft.events + 1) ∧
    (¬ leaderRaft.timer + 200 > leaderRaft.heartbeat_timeout →
      (afterTick leaderRaft 200).timer = leaderRaft.timer + 200 ∧
      countTriggers (afterTick leaderRaft 200).events
        = countTriggers leaderRaft.events) :=
  tick_leader_heartbeat leaderRaft 200 0 (afterTick leaderRaft 200) rfl
    (by decide)

/-- C1: on a Leader tick with a promotion in progress, the round duration
is first advanced by the elapsed time; the promotion then aborts exactly
when the updated duration exceeds the election timeout at round 10 or
exceeds 30000 ms; on abort all four promotion fields are reset to zero and
a PromotionAborted(target) observer notification is emitted; otherwise the
promotion fields other than the round duration are unchanged. -/
theorem tick_leader_promotion_abort (r : Raft) (msec : Nat) (rv : Int)
    (r' : Raft)
    (hstate : r.state = RaftState.leader)
    (hp : r.leader_state.promotee_id ≠ 0)
    (htick : raft__tick r msec = some (rv, r')) :
    (r'.leader_state.promotee_id = 0 ↔
      ((r.leader_state.round_number = 10 ∧
        r.leader_state.round_duration + msec > r.election_timeout) ∨
       r.leader_state.round_duration + msec > 30000)) ∧
    (((r.leader_state.round_number = 10 ∧
        r.leader_state.round_duration + msec > r.election_timeout) ∨
       r.leader_state.round_duration + msec > 30000) →
      r'.leader_state = ⟨0, 0, 0, 0⟩ ∧
      countAborts r.leader_state.promotee_id r'.events
        = countAborts r.leader_state.promotee_id r.events + 1) ∧
    (¬ ((r.leader_state.round_number = 10 ∧
        r.leader_state.round_duration + msec > r.election_timeout) ∨
       r.leader_state.round_duration + msec > 30000) →
      r'.leader_state.promotee_id = r.leader_state.promotee_id ∧
      r'.leader_state.round_index = r.leader_state.round_index ∧
      r'.leader_state.round_number = r.leader_state.round_number ∧
      r'.leader_state.round_duration
        = r.leader_state.round_duration + msec ∧
      countAborts r.leader_state.promotee_id r'.events
        = countAborts r.leader_state.promotee_id r.events) := by
  rw [raft__tick_leader_eq r msec hstate] at htick
  rw [Option.map_eq_some'] at htick
  obtain ⟨y, hy, hpair⟩ := htick
  have hpair' : ((0 : Int), y) = (rv, r') := hpair
  obtain ⟨h0, hr⟩ := Prod.mk.injEq .. ▸ hpair'
  subst hr
  have hp2 : (leaderHeartbeatStep
      { r with timer := r.timer + msec }).leader_state.promotee_id ≠ 0 := by
    rw [heartbeatStep_leader_state]
    exact hp
  have hok : promotionOk (leaderHeartbeatStep
      { r with timer := r.timer + msec }) = true := by
    by_contra hno
    rw [leaderPromotionStep_assert_fail _ msec hp2
      (by simpa using hno)] at hy
    cases hy
  rw [leaderPromotionStep_eq _ msec hp2 hok] at hy
  rw [Option.some_inj] at hy
  rw [heartbeatStep_leader_state, heartbeatStep_election_timeout] at hy
  simp only at hy
  have habort : countAborts r.leader_state.promotee_id
      (leaderHeartbeatStep { r with timer := r.timer + msec }).events
      = countAborts r.leader_state.promotee_id r.events := by
    rw [countAborts_heartbeatStep]
  by_cases hA : ((r.leader_state.round_number = 10 ∧
      r.leader_state.round_duration + msec > r.election_timeout) ∨
      r.leader_state.round_duration + msec > 30000)
  · rw [if_pos (by simpa [RAFT_MAX_CATCH_UP_DURATION] using hA)] at hy
    subst hy
    refine ⟨by simp [raft_watch__promotion_aborted, hA], fun _ => ⟨?_, ?_⟩,
      fun hnA => absurd hA hnA⟩
    · simp [raft_watch__promotion_aborted]
    · simp [raft_watch__promotion_aborted, countAborts, habort]
  · rw [if_neg (by simpa [RAFT_MAX_CATCH_UP_DURATION] using hA)] at hy
    subst hy
    refine ⟨by simp [hp, hA], fun hA2 => absurd hA2 hA,
      fun _ => ⟨by simp, by simp, by simp, by simp, by simp [habort]⟩⟩

/-- C1 witness: leader at promotion round 10 whose updated round duration
1100 exceeds the election timeout 1000, so the promotion aborts. -/
theorem tick_leader_promotion_abort_witness :
    ((afterTick { leaderRaft with leader_state := ⟨3, 4, 10, 900⟩ }
        200).leader_state.promotee_id = 0 ↔
      ((({ leaderRaft with leader_state := ⟨3, 4, 10, 900⟩ }
          : Raft).leader_state.round_number = 10 ∧
        ({ leaderRaft with leader_state := ⟨3, 4, 10, 900⟩ }
          : Raft).leader_state.round_duration + 200
          > ({ leaderRaft with leader_state := ⟨3, 4, 10, 900⟩ }
              : Raft).election_timeout) ∨
       ({ leaderRaft with leader_state := ⟨3, 4, 10, 900⟩ }
          : Raft).leader_state.round_duration + 200 > 30000)) ∧
    (((({ leaderRaft with leader_state := ⟨3, 4, 10, 900⟩ }
          : Raft).leader_state.round_number = 10 ∧
        ({ leaderRaft with leader_state := ⟨3, 4, 10, 900⟩ }
          : Raft).leader_state.round_duration + 200
          > ({ leaderRaft with leader_state := ⟨3, 4, 10, 900⟩ }
              : Raft).election_timeout) ∨
       ({ leaderRaft with leader_state := ⟨3, 4, 10, 900⟩ }
          : Raft).leader_state.round_duration + 200 > 30000) →
      (afterTick { leaderRaft with leader_state := ⟨3, 4, 10, 900⟩ }
        200).leader_state = ⟨0, 0, 0, 0⟩ ∧
      countAborts ({ leaderRaft with leader_state := ⟨3, 4, 10, 900⟩ }
          : Raft).leader_state.promotee_id
        (afterTick { leaderRaft with leader_state := ⟨3, 4, 10, 900⟩ }
          200).events
        = countAborts ({ leaderRaft with leader_state := ⟨3, 4, 10, 900⟩ }
            : Raft).leader_state.promotee_id
          ({ leaderRaft with leader_state := ⟨3, 4, 10, 900⟩ }
            : Raft).events + 1) ∧
    (¬ ((({ leaderRaft with leader_state := ⟨3, 4, 10, 900⟩ }
          : Raft).leader_state.round_number = 10 ∧
        ({ leaderRaft with leader_state := ⟨3, 4, 10, 900⟩ }
          : Raft).leader_state.round_duration + 200
          > ({ leaderRaft with leader_state := ⟨3, 4, 10, 900⟩ }
              : Raft).election_timeout) ∨
       ({ leaderRaft with leader_state := ⟨3, 4, 10, 900⟩ }
          : Raft).leader_state.round_duration + 200 > 30000) →
      (afterTick { leaderRaft with leader_state := ⟨3, 4, 10, 900⟩ }
        200).leader_state.promotee_id
        = ({ leaderRaft with leader_state := ⟨3, 4, 10, 900⟩ }
            : Raft).leader_state.promotee_id ∧
      (afterTick { leaderRaft with leader_state := ⟨3, 4, 10, 900⟩ }
        200).leader_state.round_index
        = ({ leaderRaft with leader_state := ⟨3, 4, 10, 900⟩ }
            : Raft).leader_state.round_index ∧
      (afterTick { leaderRaft with leader_state := ⟨3, 4, 10, 900⟩ }
        200).leader_state.round_number
        = ({ leaderRaft with leader_state := ⟨3, 4, 10, 900⟩ }
            : Raft).leader_state.round_number ∧
      (afterTick { leaderRaft with leader_state := ⟨3, 4, 10, 900⟩ }
        200).leader_state.round_duration
        = ({ leaderRaft with leader_state := ⟨3, 4, 10, 900⟩ }
            : Raft).leader_state.round_duration + 200 ∧
      countAborts ({ leaderRaft with leader_state := ⟨3, 4, 10, 900⟩ }
          : Raft).leader_state.promotee_id
        (afterTick { leaderRaft with leader_state := ⟨3, 4, 10, 900⟩ }
          200).events
        = countAborts ({ leaderRaft with leader_state := ⟨3, 4, 10, 900⟩ }
            : Raft).leader_state.promotee_id
          ({ leaderRaft with leader_state := ⟨3, 4, 10, 900⟩ }
            : Raft).events) :=
  tick_leader_promotion_abort
    { leaderRaft with leader_state := ⟨3, 4, 10, 900⟩ } 200 0
    (afterTick { leaderRaft with leader_state := ⟨3, 4, 10, 900⟩ } 200)
    rfl (by decide) (by decide)

/-- C10: a Leader tick always returns 0, and when it neither triggers a
heartbeat nor aborts a promotion it changes only the role timer and the
promotion round duration, leaving the role, the promotion identity fields,
the configuration and every other field unchanged and emitting no
events. -/
theorem tick_leader_frame (r : Raft) (msec : Nat) (rv : Int) (r' : Raft)
    (hstate : r.state = RaftState.leader)
    (htick : raft__tick r msec = some (rv, r')) :
    rv = 0 ∧
    (¬ r.timer + msec > r.heartbeat_timeout →
     ¬ ((r.leader_state.round_number = 10 ∧
         r.leader_state.round_duration + msec > r.election_timeout) ∨
        r.leader_state.round_duration + msec > 30000) →
     r' = { r with
       timer := r.timer + msec,
       leader_state := { r.leader_state with
         round_duration :=
           if r.leader_state.promotee_id = 0 then
             r.leader_state.round_duration
           else r.leader_state.round_duration + msec } }) := by
  rw [raft__tick_leader_eq r msec hstate] at htick
  rw [Option.map_eq_some'] at htick
  obtain ⟨y, hy, hpair⟩ := htick
  have hpair' : ((0 : Int), y) = (rv, r') := hpair
  obtain ⟨h0, hr⟩ := Prod.mk.injEq .. ▸ hpair'
  subst hr
  refine ⟨h0.symm, fun hhb hA => ?_⟩
  have hid : leaderHeartbeatStep { r with timer := r.timer + msec } =
      { r with timer := r.timer + msec } := by
    unfold leaderHeartbeatStep
    rw [if_neg (by simpa using hhb)]
  rw [hid] at hy
  by_cases hp : r.leader_state.promotee_id = 0
  · rw [leaderPromotionStep_no_promotee _ msec (by simpa using hp)] at hy
    rw [Option.some_inj] at hy
    subst hy
    rw [if_pos hp]
  · have hp2 : ({ r with timer := r.timer + msec }
        : Raft).leader_state.promotee_id ≠ 0 := by simpa using hp
    have hok : promotionOk ({ r with timer := r.timer + msec } : Raft)
        = true := by
      by_contra hno
      rw [leaderPromotionStep_assert_fail _ msec hp2
        (by simpa using hno)] at hy
      cases hy
    rw [leaderPromotionStep_eq _ msec hp2 hok] at hy
    rw [Option.some_inj] at hy
    simp only at hy
    rw [if_neg (by simpa [RAFT_MAX_CATCH_UP_DURATION] using hA)] at hy
    subst hy
    rw [if_neg hp]

/-- C10 witness: leader tick of 50 ms with neither the heartbeat condition
nor an abort condition; only the timer and round duration advance. -/
theorem tick_leader_frame_witness :
    (0 : Int) = 0 ∧
    (¬ leaderRaft.timer + 50 > leaderRaft.heartbeat_timeout →
     ¬ ((leaderRaft.leader_state.round_number = 10 ∧
         leaderRaft.leader_state.round_duration + 50
           > leaderRaft.election_timeout) ∨
        leaderRaft.leader_state.round_duration + 50 > 30000) →
     afterTick leaderRaft 50 = { leaderRaft with
       timer := leaderRaft.timer + 50,
       leader_state := { leaderRaft.leader_state with
         round_duration :=
           if leaderRaft.leader_state.promotee_id = 0 then
             leaderRaft.leader_state.round_duration
           else leaderRaft.leader_state.round_duration + 50 } }) :=
  tick_leader_frame leaderRaft 50 0 (afterTick leaderRaft 50) rfl
    (by decide)

theorem promotionInv_of_not_leader (x : Raft)
    (h : x.state ≠ RaftState.leader) : promotionInv x :=
  fun hl => absurd hl h

theorem promotionInv_of_promotee_zero (x : Raft)
    (h : x.leader_state.promotee_id = 0) : promotionInv x :=
  fun _ hp => absurd h hp

@[simp] theorem promotionOk_round_duration (r : Raft) (d : Nat) :
    promotionOk { r with leader_state :=
      { r.leader_state with round_duration := d } } = promotionOk r := rfl

/-- C9: the implicit precondition of the leader tick (a promotee is present
in the configuration and non-voting) makes the assertions of
raft_tick__leader pass, and is preserved by every tick: the tick succeeds
and its result still satisfies the precondition. -/
theorem tick_promotion_inv (r : Raft) (msec : Nat)
    (hinv : promotionInv r) :
    holdsAfter promotionInv (raft__tick r msec) := by
  cases hs : r.state with
  | unavailable =>
    unfold raft__tick
    rw [if_pos hs]
    exact hinv
  | follower =>
    unfold raft__tick
    rw [if_neg (by simp [hs])]
    simp only [hs]
    show promotionInv (raft_tick__follower
      { r with state := RaftState.follower, timer := r.timer + msec }).2
    unfold raft_tick__follower
    split
    · exact promotionInv_of_not_leader _ (by simp [hs])
    · split
      · split
        · exact promotionInv_of_promotee_zero _ rfl
        · exact promotionInv_of_not_leader _ (by simp [hs])
      · split
        · exact promotionInv_of_not_leader _ (by simp)
        · exact promotionInv_of_not_leader _ (by simp [hs])
  | candidate =>
    unfold raft__tick
    rw [if_neg (by simp [hs])]
    simp only [hs]
    show promotionInv (raft_tick__candidate
      { r with state := RaftState.candidate, timer := r.timer + msec }).2
    unfold raft_tick__candidate
    split
    · exact promotionInv_of_not_leader _ (by simp [hs])
    · exact promotionInv_of_not_leader _ (by simp [hs])
  | leader =>
    rw [raft__tick_leader_eq r msec hs]
    by_cases hp : r.leader_state.promotee_id = 0
    · rw [leaderPromotionStep_no_promotee _ msec (by simpa using hp)]
      show promotionInv (leaderHeartbeatStep
        { r with timer := r.timer + msec })
      exact promotionInv_of_promotee_zero _ (by simpa using hp)
    · have hp2 : (leaderHeartbeatStep
          { r with timer := r.timer + msec
            }).leader_state.promotee_id ≠ 0 := by simpa using hp
      have hok : promotionOk (leaderHeartbeatStep
          { r with timer := r.timer + msec }) = true := by
        simpa using hinv hs hp
      rw [leaderPromotionStep_eq _ msec hp2 hok]
      show promotionInv _
      split
      · exact promotionInv_of_promotee_zero _
          (by simp [raft_watch__promotion_aborted])
      · intro _ _
        simpa using hinv hs hp

/-- C9 witness: leader with server 3 under promotion, present and
non-voting; the tick succeeds and the precondition is preserved. -/
theorem tick_promotion_inv_witness :
    holdsAfter promotionInv (raft__tick leaderRaft 100) :=
  tick_promotion_inv leaderRaft 100 (fun _ _ => by decide)

/-- C5 counterexample: the abort thresholds are not init-time options. With
the claimed options max_catch_up_ms = 20000 and max_rounds = 5, the claimed
policy aborts the concrete promotion below (round 5, updated duration
25000, election timeout 1000), but the tick leaves it running: the code
compares against the fixed constants 10 and 30000 only. -/
theorem tick_abort_not_configurable_counterexample :
    specAbortWithOptions 20000 5 5 25000 1000 = true ∧
    (raft__tick leaderRaft 1).map
      (fun p => (p.2.leader_state.promotee_id,
                 p.2.leader_state.round_duration, p.2.events))
      = some (3, 25000, []) := by
  constructor
  · decide
  · decide

/-- C5 amended: the promotion abort thresholds of the leader tick are the
fixed constants RAFT_MAX_CATCH_UP_DURATION = 30000 ms and 10 rounds
hardcoded in tick.c; every instance follows the abort policy instantiated
at exactly these two values, whatever values an init-time configuration
could carry. -/
theorem tick_leader_abort_thresholds_fixed (r : Raft) (msec : Nat)
    (rv : Int) (r' : Raft)
    (hstate : r.state = RaftState.leader)
    (hp : r.leader_state.promotee_id ≠ 0)
    (htick : raft__tick r msec = some (rv, r')) :
    (r'.leader_state.promotee_id = 0 ↔
      specAbortWithOptions RAFT_MAX_CATCH_UP_DURATION 10
        r.leader_state.round_number
        (r.leader_state.round_duration + msec)
        r.election_timeout = true) ∧
    RAFT_MAX_CATCH_UP_DURATION = 30000 := by
  rw [raft__tick_leader_eq r msec hstate] at htick
  rw [Option.map_eq_some'] at htick
  obtain ⟨y, hy, hpair⟩ := htick
  have hpair' : ((0 : Int), y) = (rv, r') := hpair
  obtain ⟨h0, hr⟩ := Prod.mk.injEq .. ▸ hpair'
  subst hr
  have hp2 : (leaderHeartbeatStep
      { r with timer := r.timer + msec }).leader_state.promotee_id ≠ 0 := by
    simpa using hp
  have hok : promotionOk (leaderHeartbeatStep
      { r with timer := r.timer + msec }) = true := by
    by_contra hno
    rw [leaderPromotionStep_assert_fail _ msec hp2
      (by simpa using hno)] at hy
    cases hy
  rw [leaderPromotionStep_eq _ msec hp2 hok] at hy
  rw [Option.some_inj] at hy
  rw [heartbeatStep_leader_state, heartbeatStep_election_timeout] at hy
  simp only at hy
  refine ⟨?_, rfl⟩
  have hspec : (specAbortWithOptions RAFT_MAX_CATCH_UP_DURATION 10
      r.leader_state.round_number (r.leader_state.round_duration + msec)
      r.election_timeout = true) ↔
      ((r.leader_state.round_number = 10 ∧
        r.leader_state.round_duration + msec > r.election_timeout) ∨
       r.leader_state.round_duration + msec
         > RAFT_MAX_CATCH_UP_DURATION) := by
    simp [specAbortWithOptions]
  by_cases hA : ((r.leader_state.round_number = 10 ∧
      r.leader_state.round_duration + msec > r.election_timeout) ∨
      r.leader_state.round_duration + msec > RAFT_MAX_CATCH_UP_DURATION)
  · rw [if_pos hA] at hy
    subst hy
    exact ⟨fun _ => hspec.mpr hA, fun _ => rfl⟩
  · rw [if_neg hA] at hy
    subst hy
    exact ⟨fun h0' => absurd h0' hp, fun hs' => absurd (hspec.mp hs') hA⟩

/-- C5 amended witness: updated round duration 30100 exceeds the fixed
30000 ms threshold, so the promotion aborts at the default thresholds. -/
theorem tick_leader_abort_thresholds_fixed_witness :
    ((afterTick { leaderRaft with leader_state := ⟨3, 4, 5, 29900⟩ }
        200).leader_state.promotee_id = 0 ↔
      specAbortWithOptions RAFT_MAX_CATCH_UP_DURATION 10
        ({ leaderRaft with leader_state := ⟨3, 4, 5, 29900⟩ }
          : Raft).leader_state.round_number
        (({ leaderRaft with leader_state := ⟨3, 4, 5, 29900⟩ }
          : Raft).leader_state.round_duration + 200)
        ({ leaderRaft with leader_state := ⟨3, 4, 5, 29900⟩ }
          : Raft).election_timeout = true) ∧
    RAFT_MAX_CATCH_UP_DURATION = 30000 :=
  tick_leader_abort_thresholds_fixed
    { leaderRaft with leader_state := ⟨3, 4, 5, 29900⟩ } 200 0
    (afterTick { leaderRaft with leader_state := ⟨3, 4, 5, 29900⟩ } 200)
    rfl (by decide) (by decide)

end RaftTick
